import Mathlib

/-!
Verification development for the GlobaLeaks backend (authentication handlers,
API response cache, utility library, service lifecycle).

Each Python function that the claims mention is shallowly embedded as an
executable Lean definition translated from the source:

* `backend/globaleaks/handlers/authentication.py`:
  `random_login_delay`, `login`, `login_whistleblower`,
  `check_tenant_auth_switch`, `TenantAuthSwitchHandler.get`.
* `backend/globaleaks/utils/utility.py`:
  `bytes_to_pretty_str`, `parse_csv_ip_ranges_to_ip_networks`.
* `backend/globaleaks/rest/apicache.py`: `gzipdata`, `ApiCache.get`,
  `ApiCache.set`, `ApiCache.invalidate`.
* `backend/globaleaks/backend.py`: the one-shot finalize callback of
  `Service.shutdown`.

External library behaviour (the OS random source, the gzip codec, the
Python `ipaddress` stdlib module) is modelled by explicit parameters with
stated contracts or by faithful re-implementations of the parts the code
exercises; machine integers do not overflow in any of the embedded code
(Python integers are unbounded), so `Nat` is used throughout.
-/

namespace Gleaks

/-! ## Login delay policy (`random_login_delay`)

The Python function reads the process-wide counter
`Settings.failed_login_attempts` and draws from `SystemRandom().randint`.
Both are modelled as explicit arguments: `failed_login_attempts` is the
counter's value and `randint` is the random source, about which the
theorems assume only the `randint` contract (an inclusive uniform range).
-/

/-- Embedding of `random_login_delay` from
`handlers/authentication.py`.  `randint a b` models
`SystemRandom().randint(a, b)`. -/
def random_login_delay (randint : Nat → Nat → Nat)
    (failed_login_attempts : Nat) : Nat :=
  if failed_login_attempts ≥ 5 then
    let n := failed_login_attempts * failed_login_attempts
    let min_sleep := if failed_login_attempts < 42 then failed_login_attempts else 42
    let max_sleep := if n < 42 then n else 42
    randint min_sleep max_sleep
  else
    0

/-! ## Byte-count formatting (`bytes_to_pretty_str`) -/

/-- Parse a non-empty all-digit decimal numeral (the numerals accepted
both by `int(s)` on the strings this code feeds it and by
`ipaddress`'s prefix-length check, which requires all-digit input). -/
def parse_decimal (cs : List Char) : Option Nat :=
  if cs = [] ∨ ¬ (cs.all Char.isDigit) then none
  else some (cs.foldl (fun a c => a * 10 + (c.toNat - 48)) 0)

/-- The numeric core of `bytes_to_pretty_str` from `utils/utility.py`
applied after the `str` argument case has been converted with `int`.
Python's `int(b / 1000)` truncates the true quotient, which for
non-negative integers is `Nat` division.  `"%d" % n` prints a
non-negative integer exactly as `toString n`. -/
def bytes_fmt (b : Nat) : String :=
  if b ≥ 1000000000 then toString (b / 1000000000) ++ "GB"
  else if b ≥ 1000000 then toString (b / 1000000) ++ "MB"
  else toString (b / 1000) ++ "KB"

/-- The argument of `bytes_to_pretty_str`: the Python code accepts a
string (converted with `int(b)`) or an integer. -/
inductive BytesArg where
  | str (s : String)
  | int (n : Nat)
deriving DecidableEq

/-- Embedding of `bytes_to_pretty_str` from `utils/utility.py`.  A string
argument is converted with `int(b)` (modelled by `String.toNat?`; `none`
models the `ValueError` a non-numeric string raises). -/
def bytes_to_pretty_str : BytesArg → Option String
  | .str s => (parse_decimal s.toList).map bytes_fmt
  | .int n => some (bytes_fmt n)

/-! ## IP addresses and networks

The authentication code relies on Python's `ipaddress` stdlib module.
The parts it exercises — `ip_address` (dotted-quad IPv4 and colon-hex
IPv6 literals), `ip_network(..., strict=True)` with a decimal prefix
length, `is_loopback` and network membership — are re-implemented here.
Not modelled (never produced by this code path and outside the claims):
dotted netmask suffixes and IPv4-embedded IPv6 literals. -/

/-- Split a character list at every occurrence of a separator character,
with Python `str.split(sep)` semantics: the empty input yields one empty
part, and adjacent separators yield empty parts. -/
def splitOnChar (sep : Char) : List Char → List (List Char)
  | [] => [[]]
  | c :: t =>
    if c = sep then [] :: splitOnChar sep t
    else
      match splitOnChar sep t with
      | h :: r => (c :: h) :: r
      | [] => [[c]]

/-- Split a character list at every non-overlapping occurrence of the
two-character separator `::`, left to right, with Python
`str.split("::")` semantics. -/
def splitOnDC : List Char → List (List Char)
  | [] => [[]]
  | [c] => [[c]]
  | a :: b :: t =>
    if a = ':' ∧ b = ':' then [] :: splitOnDC t
    else
      match splitOnDC (b :: t) with
      | h :: r => (a :: h) :: r
      | [] => [[a]]

/-- Parse one decimal IPv4 octet: 1–3 ASCII digits, value at most 255
(as accepted by `ipaddress.IPv4Address`). -/
def parse_octet (cs : List Char) : Option Nat :=
  if cs.length = 0 ∨ cs.length > 3 ∨ ¬ (cs.all Char.isDigit) then none
  else
    let n := cs.foldl (fun a c => a * 10 + (c.toNat - 48)) 0
    if n ≤ 255 then some n else none

/-- Parse a dotted-quad IPv4 literal to its 32-bit integer value. -/
def parse_ipv4 (s : String) : Option Nat :=
  match (splitOnChar '.' s.toList).mapM parse_octet with
  | some [a, b, c, d] => some (((a * 256 + b) * 256 + c) * 256 + d)
  | _ => none

/-- Parse one 16-bit IPv6 group: 1–4 hex digits. -/
def parse_hex_group (cs : List Char) : Option Nat :=
  if cs.length = 0 ∨ cs.length > 4 ∨
     ¬ (cs.all fun c => c.isDigit ∨ ('a' ≤ c ∧ c ≤ 'f') ∨ ('A' ≤ c ∧ c ≤ 'F')) then
    none
  else
    some (cs.foldl (fun a c =>
      a * 16 + (if c.isDigit then c.toNat - 48
                else if 'a' ≤ c then c.toNat - 87 else c.toNat - 55)) 0)

/-- Assemble 16-bit groups big-endian into one integer. -/
def groups_to_nat (gs : List Nat) : Nat :=
  gs.foldl (fun a g => a * 65536 + g) 0

/-- Parse a colon-hex IPv6 literal (with at most one `::` compression)
to its 128-bit integer value. -/
def parse_ipv6 (s : String) : Option Nat :=
  match splitOnDC s.toList with
  | [t] =>
    match (splitOnChar ':' t).mapM parse_hex_group with
    | some gs => if gs.length = 8 then some (groups_to_nat gs) else none
    | none => none
  | [l, r] =>
    let lparts := if l = [] then [] else splitOnChar ':' l
    let rparts := if r = [] then [] else splitOnChar ':' r
    match lparts.mapM parse_hex_group, rparts.mapM parse_hex_group with
    | some lg, some rg =>
      if lg.length + rg.length ≤ 7 then
        some (groups_to_nat (lg ++ List.replicate (8 - lg.length - rg.length) 0 ++ rg))
      else none
    | _, _ => none
  | _ => none

/-- An IP address as `ipaddress.ip_address` returns it: an IPv4 or IPv6
address with its integer value. -/
inductive IPAddr where
  | v4 (a : Nat)
  | v6 (a : Nat)
deriving DecidableEq

/-- `max_prefixlen` of the address's version: 32 for IPv4, 128 for IPv6. -/
def IPAddr.max_plen : IPAddr → Nat
  | .v4 _ => 32
  | .v6 _ => 128

/-- The integer value of an address. -/
def IPAddr.toNat : IPAddr → Nat
  | .v4 a => a
  | .v6 a => a

/-- `is_loopback`: `127.0.0.0/8` for IPv4, `::1` for IPv6. -/
def IPAddr.is_loopback : IPAddr → Bool
  | .v4 a => a / 16777216 = 127
  | .v6 a => a = 1

/-- Embedding of `ipaddress.ip_address`: try IPv4, then IPv6; `none`
models the `ValueError` raised when neither parse succeeds. -/
def ip_address (s : String) : Option IPAddr :=
  match parse_ipv4 s with
  | some a => some (IPAddr.v4 a)
  | none => (parse_ipv6 s).map IPAddr.v6

/-- An IP network as `ipaddress.ip_network` returns it: a network
address and a prefix length. -/
structure IPNetwork where
  address : IPAddr
  plen : Nat
deriving DecidableEq

/-- Network membership (`addr in network`): same IP version and equal
upper `plen` bits; Python returns `False` on a version mismatch. -/
def IPNetwork.mem (n : IPNetwork) (a : IPAddr) : Bool :=
  match n.address, a with
  | .v4 na, .v4 ia => ia / 2 ^ (32 - n.plen) = na / 2 ^ (32 - n.plen)
  | .v6 na, .v6 ia => ia / 2 ^ (128 - n.plen) = na / 2 ^ (128 - n.plen)
  | _, _ => false

/-- Embedding of `ipaddress.ip_network(s, strict=True)` with a decimal
prefix length: `address/plen` where `plen` is all digits, at most
`max_prefixlen`, and the host bits of `address` are zero (`strict`);
`none` models the `ValueError` on any violation. -/
def ip_network_strict (s : String) : Option IPNetwork :=
  match splitOnChar '/' s.toList with
  | [a, p] =>
    match ip_address (String.mk a), parse_decimal p with
    | some addr, some plen =>
      if plen ≤ addr.max_plen ∧ addr.toNat % 2 ^ (addr.max_plen - plen) = 0 then
        some ⟨addr, plen⟩
      else none
    | _, _ => none
  | _ => none

/-- Equality on `Except` results is decidable when it is on both
components (used to evaluate the embedded functions on concrete
inputs). -/
instance {ε α : Type} [DecidableEq ε] [DecidableEq α] : DecidableEq (Except ε α) := fun x y =>
  match x, y with
  | Except.ok a, Except.ok b =>
    if h : a = b then Decidable.isTrue (h ▸ rfl)
    else Decidable.isFalse (fun e => h (Except.ok.inj e))
  | Except.error a, Except.error b =>
    if h : a = b then Decidable.isTrue (h ▸ rfl)
    else Decidable.isFalse (fun e => h (Except.error.inj e))
  | Except.ok _, Except.error _ => Decidable.isFalse (fun e => Except.noConfusion e)
  | Except.error _, Except.ok _ => Decidable.isFalse (fun e => Except.noConfusion e)

/-- One loop iteration of `parse_csv_ip_ranges_to_ip_networks` from
`utils/utility.py`: an entry containing `/` is parsed as a strict CIDR
network; otherwise the entry must parse as an address and is re-parsed
as `entry + '/' + str(max_prefixlen)`; any `ValueError` becomes an
`InputValidationError` whose message names the entry. -/
def parse_csv_entry (entry : List Char) : Except String IPNetwork :=
  if ('/' : Char) ∈ entry then
    match ip_network_strict (String.mk entry) with
    | some n => Except.ok n
    | none => Except.error ("Unable to parse IP address: " ++ String.mk entry)
  else
    match ip_address (String.mk entry) with
    | some a =>
      match ip_network_strict (String.mk entry ++ "/" ++ toString a.max_plen) with
      | some n => Except.ok n
      | none => Except.error ("Unable to parse IP address: " ++ String.mk entry)
    | none => Except.error ("Unable to parse IP address: " ++ String.mk entry)

/-- Embedding of `parse_csv_ip_ranges_to_ip_networks` from
`utils/utility.py`: split the input on commas and parse every entry,
stopping with the `InputValidationError` of the first bad entry. -/
def parse_csv_ip_ranges_to_ip_networks (ip_str : String) : Except String (List IPNetwork) :=
  (splitOnChar ',' ip_str.toList).mapM parse_csv_entry

/-! ## API response cache (`rest/apicache.py`)

Python dictionaries are modelled as association lists with unique keys:
`lookupA` is `d.get(k)`, `insertA` is `d[k] = v` (replacing in place an
existing key, appending otherwise), and removal of a key (`d.pop(k)`)
filters it out.  The gzip codec is external code; `ApiCache.set` takes
the compressor `gz` as a parameter, and the round-trip theorem assumes
only that some decompressor inverts it. -/

/-- Dictionary lookup on an association list. -/
def lookupA {α β : Type} [DecidableEq α] : List (α × β) → α → Option β
  | [], _ => none
  | (k2, v) :: t, k => if k2 = k then some v else lookupA t k

/-- Dictionary update on an association list: replace the binding of an
existing key in place, else append the new binding. -/
def insertA {α β : Type} [DecidableEq α] : List (α × β) → α → β → List (α × β)
  | [], k, v => [(k, v)]
  | (k2, v2) :: t, k, v =>
    if k2 = k then (k, v) :: t else (k2, v2) :: insertA t k v

/-- The `data` argument of `ApiCache.set`: Python text (encoded to UTF-8
by `gzipdata`) or bytes. -/
inductive CacheData where
  | text (s : String)
  | bytes (b : List UInt8)
deriving DecidableEq

/-- The raw bytes of a `CacheData` value before compression. -/
def CacheData.raw : CacheData → List UInt8
  | .text s => s.toUTF8.toList
  | .bytes b => b

/-- Embedding of `gzipdata` from `rest/apicache.py`: encode text to
bytes, then compress with the gzip codec `gz`. -/
def gzipdata (gz : List UInt8 → List UInt8) (data : CacheData) : List UInt8 :=
  gz data.raw

/-- A cache entry: the `(content_type, gzipped data)` pair. -/
abbrev CacheEntry := String × List UInt8

/-- The type of `ApiCache.memory_cache_dict`: tenant id → resource path
→ language → entry. -/
abbrev Cache := List (Nat × List (String × List (String × CacheEntry)))

/-- Embedding of `ApiCache.get`: present only when all three key levels
are present. -/
def ApiCache.get (c : Cache) (tid : Nat) (resource language : String) : Option CacheEntry :=
  match lookupA c tid with
  | none => none
  | some m1 =>
    match lookupA m1 resource with
    | none => none
    | some m2 => lookupA m2 language

/-- Embedding of `ApiCache.set`: gzip the data, create the missing
intermediate dictionaries, store the `(content_type, data)` entry under
the three keys and return it together with the updated cache. -/
def ApiCache.set (gz : List UInt8 → List UInt8) (c : Cache) (tid : Nat)
    (resource language content_type : String) (data : CacheData) :
    Cache × CacheEntry :=
  let d := gzipdata gz data
  let m1 := (lookupA c tid).getD []
  let m2 := (lookupA m1 resource).getD []
  let entry : CacheEntry := (content_type, d)
  (insertA c tid (insertA m1 resource (insertA m2 language entry)), entry)

/-- The arguments of one `ApiCache.set` call. -/
structure SetOp where
  tid : Nat
  resource : String
  language : String
  content_type : String
  data : CacheData

/-- Apply a sequence of `ApiCache.set` calls to a cache, in order. -/
def applySetOps (gz : List UInt8 → List UInt8) : List SetOp → Cache → Cache
  | [], c => c
  | op :: t, c =>
    applySetOps gz t (ApiCache.set gz c op.tid op.resource op.language op.content_type op.data).1

/-- Embedding of `ApiCache.invalidate`: with a tenant id, `pop` that
tenant's key (a dictionary holds one binding per key, so filtering the
key out); with `None`, clear the whole dictionary. -/
def ApiCache.invalidate (c : Cache) (tid : Option Nat) : Cache :=
  match tid with
  | some t => c.filter (fun p => p.1 ≠ t)
  | none => []

/-! ## Authentication (`handlers/authentication.py`)

The database tables touched by the login flows are modelled as lists of
rows, the tenant-cache entry for the tenant as an explicit record, the
password/receipt hashing primitives of `globaleaks.utils.security`
(outside the four source files) as function parameters, and the
process-wide counter `Settings.failed_login_attempts` as an explicit
in/out value.  Row ids are strings (UUIDs).  The success paths also
stamp `last_login` / `wb_last_access`, a field none of the claims
mention; the returned session captures everything else. -/

/-- A `User` row (the columns `login` reads). -/
structure User where
  id : String
  username : String
  salt : String
  password : String
  role : String
  state : String
  password_change_needed : Bool
deriving DecidableEq

/-- A `UserTenant` membership row. -/
structure UserTenant where
  user_id : String
  tenant_id : Nat
deriving DecidableEq

/-- A `WhistleblowerTip` row (the columns `login_whistleblower` reads). -/
structure WhistleblowerTip where
  id : String
  tid : Nat
  receipt_hash : String
deriving DecidableEq

/-- An `InternalTip` row (the columns `login_whistleblower` reads). -/
structure InternalTip where
  id : String
  tid : Nat
deriving DecidableEq

/-- The database state the two login transactions read. -/
structure DB where
  users : List User
  user_tenants : List UserTenant
  wbtips : List WhistleblowerTip
  itips : List InternalTip

/-- The fields of `State.tenant_cache[tid]` the login flows read.
`https` models the lookup of the key `'https_' + role` (and
`'https_whistleblower'`). -/
structure TenantConfig where
  https : String → Bool
  receipt_salt : String
  ip_filter_authenticated_enable : Bool
  ip_filter_authenticated : String

/-- A session as `Sessions.new(tid, user_id, role, pcn)` creates it. -/
structure Session where
  tid : Nat
  user_id : String
  role : String
  pcn : Bool
deriving DecidableEq

/-- The structured errors the login flows raise
(`globaleaks.rest.errors`), plus the bare `ValueError` that
`ipaddress.ip_address(client_ip)` raises on an unparseable client
address (the code does not catch it). -/
inductive AuthError where
  | invalidAuthentication
  | torNetworkRequired
  | accessLocationInvalid
  | inputValidationError (msg : String)
  | valueError
deriving DecidableEq

/-- The user-selection loop of `login`: filter `User` rows on username,
non-disabled state and a `UserTenant` membership for the tenant, then
keep the last row whose password verifies (`user = u` inside the
`for` loop).  `.distinct()` only collapses duplicate identical rows and
cannot change the value this loop selects. -/
def findVerifyingUser (db : DB) (checkpw : String → String → String → Bool)
    (tid : Nat) (username password : String) : Option User :=
  (db.users.filter fun u =>
      u.username = username ∧ u.state ≠ "disabled" ∧
      db.user_tenants.any fun ut => ut.user_id = u.id ∧ ut.tenant_id = tid).foldl
    (fun acc u => if checkpw password u.salt u.password then some u else acc) none

/-- Embedding of `login` from `handlers/authentication.py`.  `checkpw`
models `security.check_password(password, salt, stored_hash)`.  Returns
the result together with the updated
`Settings.failed_login_attempts` counter. -/
def login (db : DB) (checkpw : String → String → String → Bool)
    (tc : TenantConfig) (tid : Nat) (username password : String)
    (client_using_tor : Bool) (client_ip : String)
    (failed_login_attempts : Nat) : Except AuthError Session × Nat :=
  match findVerifyingUser db checkpw tid username password with
  | none => (Except.error AuthError.invalidAuthentication, failed_login_attempts + 1)
  | some user =>
    if ¬ client_using_tor ∧ ¬ tc.https user.role then
      (Except.error AuthError.torNetworkRequired, failed_login_attempts)
    else if tc.ip_filter_authenticated_enable then
      match parse_csv_ip_ranges_to_ip_networks tc.ip_filter_authenticated with
      | Except.error e =>
        (Except.error (AuthError.inputValidationError e), failed_login_attempts)
      | Except.ok ip_networks =>
        match ip_address client_ip with
        | none => (Except.error AuthError.valueError, failed_login_attempts)
        | some client_ip_obj =>
          let success := client_ip_obj.is_loopback ∨ ip_networks.any (fun n => n.mem client_ip_obj)
          if success then
            (Except.ok ⟨tid, user.id, user.role, user.password_change_needed⟩,
             failed_login_attempts)
          else
            (Except.error AuthError.accessLocationInvalid, failed_login_attempts)
    else
      (Except.ok ⟨tid, user.id, user.role, user.password_change_needed⟩,
       failed_login_attempts)

/-- The query of `login_whistleblower`: the first
`(WhistleblowerTip, InternalTip)` pair whose receipt hash matches and
whose ids and tenant ids line up. -/
def wbLoginQuery (db : DB) (tid : Nat) (hashed_receipt : String) :
    Option (WhistleblowerTip × InternalTip) :=
  ((db.wbtips.product db.itips).filter fun p =>
      p.1.receipt_hash = hashed_receipt ∧ p.1.tid = tid ∧
      p.2.id = p.1.id ∧ p.2.tid = p.1.tid).head?

/-- Embedding of `login_whistleblower` from
`handlers/authentication.py`.  `hashpw` models
`security.hash_password(receipt, salt)`. -/
def login_whistleblower (db : DB) (hashpw : String → String → String)
    (tc : TenantConfig) (tid : Nat) (receipt : String)
    (client_using_tor : Bool) (failed_login_attempts : Nat) :
    Except AuthError Session × Nat :=
  let hashed_receipt := hashpw receipt tc.receipt_salt
  match wbLoginQuery db tid hashed_receipt with
  | none => (Except.error AuthError.invalidAuthentication, failed_login_attempts + 1)
  | some result =>
    let wbtip := result.1
    if ¬ client_using_tor ∧ ¬ tc.https "whistleblower" then
      (Except.error AuthError.torNetworkRequired, failed_login_attempts)
    else
      (Except.ok ⟨tid, wbtip.id, "whistleblower", false⟩, failed_login_attempts)

/-! ## Tenant switch (`check_tenant_auth_switch`,
  `TenantAuthSwitchHandler.get`) -/

/-- The outcome of SQLAlchemy's `Query.one()`: the row when exactly one
matches, `NoResultFound` when none does, `MultipleResultsFound`
otherwise. -/
inductive OneError where
  | noResultFound
  | multipleResultsFound
deriving DecidableEq

/-- SQLAlchemy `Query.one()` on the list of matching rows. -/
def queryOne {α : Type} : List α → Except OneError α
  | [x] => Except.ok x
  | [] => Except.error OneError.noResultFound
  | _ => Except.error OneError.multipleResultsFound

/-- Embedding of `check_tenant_auth_switch` from
`handlers/authentication.py`: `.one()` on the membership rows for
`(current_user.user_id, tid)`, then `return ut is not None` — and the
row `.one()` hands back is never `None`, so the returned Boolean is
the constant `true`. -/
def check_tenant_auth_switch (user_tenants : List UserTenant)
    (user_id : String) (tid : Nat) : Except OneError Bool :=
  match queryOne (user_tenants.filter fun ut =>
      ut.user_id = user_id ∧ ut.tenant_id = tid) with
  | Except.error e => Except.error e
  | Except.ok _ut => Except.ok true

/-- What `TenantAuthSwitchHandler.get` can produce: a redirect built
from a new session, a propagated query error, or the
`UnboundLocalError` of reading `session` when the `if check:` guard was
not taken (the `returnValue` line uses `session.id` unconditionally). -/
inductive SwitchOutcome where
  | redirect (s : Session)
  | queryError (e : OneError)
  | unboundLocalSession
deriving DecidableEq

/-- Embedding of the body of `TenantAuthSwitchHandler.get`,
parametrised by the result of `check_tenant_auth_switch` and by the
session `Sessions.new` would create. -/
def tenantAuthSwitchGet (checkResult : Except OneError Bool)
    (newSession : Session) : SwitchOutcome :=
  match checkResult with
  | Except.error e => SwitchOutcome.queryError e
  | Except.ok check =>
    if check then SwitchOutcome.redirect newSession
    else SwitchOutcome.unboundLocalSession

/-! ## Service shutdown (`backend.py`)

`Service.shutdown` schedules the inner `_shutdown` callback twice: once
on a 30-second `reactor.callLater` timer and once on completion of the
`DeferredList` collecting the job/service stops (`addBoth`).  Whichever
fires first runs the finalize step; the `self._shutdown` flag makes any
later invocation a no-op.  The callback is modelled as a state
transformer and the two triggers as an arbitrary non-empty sequence of
invocation events in the order they fire. -/

/-- The observable shutdown state: the one-shot `self._shutdown` flag,
and how many times `orm_tp.stop()` and the completion callback
`d.callback` have run. -/
structure ShutdownState where
  shutdown_flag : Bool
  orm_tp_stops : Nat
  d_callbacks : Nat
deriving DecidableEq

/-- The state before `Service.shutdown` runs: the class attribute
`_shutdown = False`, nothing finalized. -/
def initShutdownState : ShutdownState := ⟨false, 0, 0⟩

/-- Embedding of the inner `_shutdown` callback of `Service.shutdown`:
return immediately when the flag is set, else set it, stop the ORM
thread pool and fire the completion deferred. -/
def shutdownCallback (st : ShutdownState) : ShutdownState :=
  if st.shutdown_flag then st
  else ⟨true, st.orm_tp_stops + 1, st.d_callbacks + 1⟩

/-- The two events that invoke the callback: the 30-second timer and
the completion of the job/service stop collection. -/
inductive ShutdownEvent where
  | timerFired
  | jobsStopped
deriving DecidableEq

/-- Run the callback once per event, in firing order: both events
invoke the same `_shutdown` callback. -/
def runShutdownEvents (evs : List ShutdownEvent) (st : ShutdownState) : ShutdownState :=
  evs.foldl (fun s _ => shutdownCallback s) st

/-! ## Theorems -/

/-- C1: for every value `F` of the process-wide failed-login counter,
`random_login_delay` returns 0 when `F < 5`; an integer in `[5,25]`
when `F = 5`; in `[6,36]` when `F = 6`; in `[7,42]` when `F = 7`; in
`[F,42]` when `8 ≤ F ≤ 42`; and exactly 42 when `F > 42` — assuming
only that `randint a b` lies in `[a, b]`. -/
theorem C1_random_login_delay_ranges (randint : Nat → Nat → Nat)
    (hr : ∀ a b : Nat, a ≤ b → a ≤ randint a b ∧ randint a b ≤ b)
    (F : Nat) :
    (F < 5 → random_login_delay randint F = 0) ∧
    (F = 5 → 5 ≤ random_login_delay randint F ∧ random_login_delay randint F ≤ 25) ∧
    (F = 6 → 6 ≤ random_login_delay randint F ∧ random_login_delay randint F ≤ 36) ∧
    (F = 7 → 7 ≤ random_login_delay randint F ∧ random_login_delay randint F ≤ 42) ∧
    (8 ≤ F → F ≤ 42 → F ≤ random_login_delay randint F ∧ random_login_delay randint F ≤ 42) ∧
    (42 < F → random_login_delay randint F = 42) := by
  refine ⟨?_, ?_, ?_, ?_, ?_, ?_⟩
  · intro h
    simp only [random_login_delay]
    rw [if_neg (by omega)]
  · rintro rfl
    simpa [random_login_delay] using hr 5 25 (by norm_num)
  · rintro rfl
    simpa [random_login_delay] using hr 6 36 (by norm_num)
  · rintro rfl
    simpa [random_login_delay] using hr 7 42 (by norm_num)
  · intro h8 h42
    have h64 : 8 * 8 ≤ F * F := Nat.mul_le_mul h8 h8
    have hmin : (if F < 42 then F else 42) = F := by split <;> omega
    have hmax : (if F * F < 42 then F * F else 42) = 42 := by split <;> omega
    simp only [random_login_delay]
    rw [if_pos (by omega), hmin, hmax]
    exact ⟨(hr F 42 (by omega)).1, (hr F 42 (by omega)).2⟩
  · intro h
    have h64 : 8 * 8 ≤ F * F := Nat.mul_le_mul (by omega) (by omega)
    have hmin : (if F < 42 then F else 42) = 42 := by split <;> omega
    have hmax : (if F * F < 42 then F * F else 42) = 42 := by split <;> omega
    simp only [random_login_delay]
    rw [if_pos (by omega), hmin, hmax]
    have := hr 42 42 (Nat.le_refl 42)
    omega

/-- Concrete instantiation of `C1_random_login_delay_ranges`: the
random source that always answers its lower bound, at `F = 6`. -/
theorem C1_random_login_delay_ranges_witness :
    6 ≤ random_login_delay (fun a _ => a) 6 ∧
    random_login_delay (fun a _ => a) 6 ≤ 36 :=
  (C1_random_login_delay_ranges (fun a _ => a)
    (fun a _b h => ⟨Nat.le_refl a, h⟩) 6).2.2.1 rfl

/-- C8 counterexample: the claim's example `bytes_to_pretty_str(500) =
"500KB"` is false on the code — `"%dKB" % int(500 / 1000)` prints
`"0KB"`. -/
theorem C8_bytes_to_pretty_str_counterexample :
    bytes_to_pretty_str (BytesArg.int 500) = some "0KB" ∧
    bytes_to_pretty_str (BytesArg.int 500) ≠ some "500KB" := by
  decide

/-- C8 (amended): `bytes_to_pretty_str` formats a byte count (string or
integer) with decimal 1000-based thresholds and integer truncation, no
label below the kilobyte scale; `bytes_to_pretty_str 500 = "0KB"`,
`bytes_to_pretty_str 2500000 = "2MB"`,
`bytes_to_pretty_str 3000000000 = "3GB"`. -/
theorem C8_bytes_to_pretty_str_amended :
    (∀ n : Nat, 1000000000 ≤ n →
      bytes_to_pretty_str (BytesArg.int n) = some (toString (n / 1000000000) ++ "GB")) ∧
    (∀ n : Nat, 1000000 ≤ n → n < 1000000000 →
      bytes_to_pretty_str (BytesArg.int n) = some (toString (n / 1000000) ++ "MB")) ∧
    (∀ n : Nat, n < 1000000 →
      bytes_to_pretty_str (BytesArg.int n) = some (toString (n / 1000) ++ "KB")) ∧
    (∀ (s : String) (n : Nat), parse_decimal s.toList = some n →
      bytes_to_pretty_str (BytesArg.str s) = bytes_to_pretty_str (BytesArg.int n)) ∧
    bytes_to_pretty_str (BytesArg.int 500) = some "0KB" ∧
    bytes_to_pretty_str (BytesArg.int 2500000) = some "2MB" ∧
    bytes_to_pretty_str (BytesArg.int 3000000000) = some "3GB" := by
  refine ⟨?_, ?_, ?_, ?_, by decide, by decide, by decide⟩
  · intro n h
    simp only [bytes_to_pretty_str, bytes_fmt]
    rw [if_pos h]
  · intro n h1 h2
    simp only [bytes_to_pretty_str, bytes_fmt]
    rw [if_neg (by omega), if_pos h1]
  · intro n h
    simp only [bytes_to_pretty_str, bytes_fmt]
    rw [if_neg (by omega), if_neg (by omega)]
  · intro s n h
    simp only [bytes_to_pretty_str]
    rw [h]
    rfl

/-- Concrete instantiation of `C8_bytes_to_pretty_str_amended` at the
gigabyte threshold example. -/
theorem C8_bytes_to_pretty_str_amended_witness :
    bytes_to_pretty_str (BytesArg.int 3000000000) =
      some (toString ((3000000000 : Nat) / 1000000000) ++ "GB") :=
  C8_bytes_to_pretty_str_amended.1 3000000000 (by norm_num)

/-- Splitting a list without the separator yields the one part. -/
theorem splitOnChar_no_sep (sep : Char) (l : List Char) (h : sep ∉ l) :
    splitOnChar sep l = [l] := by
  induction l with
  | nil => rfl
  | cons c t ih =>
    have hc : ¬ c = sep := fun e => h (e ▸ List.mem_cons_self c t)
    have ht : sep ∉ t := fun m => h (List.mem_cons_of_mem c m)
    simp only [splitOnChar, if_neg hc, ih ht]

/-- Splitting around the first separator occurrence. -/
theorem splitOnChar_append (sep : Char) (l r : List Char) (h : sep ∉ l) :
    splitOnChar sep (l ++ sep :: r) = l :: splitOnChar sep r := by
  induction l with
  | nil => simp [splitOnChar]
  | cons c t ih =>
    have hc : ¬ c = sep := fun e => h (e ▸ List.mem_cons_self c t)
    have ht : sep ∉ t := fun m => h (List.mem_cons_of_mem c m)
    simp only [List.cons_append, splitOnChar, if_neg hc, List.append_eq, ih ht]

/-- The reparse `ip_network(entry + '/' + str(max_prefixlen))` on the
bare-address branch always yields the host network of the address. -/
theorem ip_network_strict_host (entry : List Char) (a : IPAddr)
    (h : ('/' : Char) ∉ entry) (ha : ip_address (String.mk entry) = some a) :
    ip_network_strict (String.mk entry ++ "/" ++ toString a.max_plen) =
      some ⟨a, a.max_plen⟩ := by
  cases a with
  | v4 a0 =>
    have h32 : (toString (32 : Nat)).data = ['3', '2'] := by decide
    have hl : (String.mk entry ++ "/" ++ toString (IPAddr.v4 a0).max_plen).toList
        = entry ++ ('/' : Char) :: ['3', '2'] := by
      show ((String.mk entry ++ "/" ++ toString (IPAddr.v4 a0).max_plen).data
        = entry ++ ('/' : Char) :: ['3', '2'])
      rw [String.data_append, String.data_append]
      show entry ++ "/".data ++ (toString (32 : Nat)).data = _
      rw [h32]
      simp
    have hq : splitOnChar ('/' : Char) ['3', '2'] = [['3', '2']] := by decide
    have hp : parse_decimal ['3', '2'] = some 32 := by decide
    simp only [ip_network_strict, hl, splitOnChar_append _ _ _ h, hq, ha, hp]
    simp [IPAddr.max_plen, IPAddr.toNat, Nat.mod_one]
  | v6 a0 =>
    have h128 : (toString (128 : Nat)).data = ['1', '2', '8'] := by decide
    have hl : (String.mk entry ++ "/" ++ toString (IPAddr.v6 a0).max_plen).toList
        = entry ++ ('/' : Char) :: ['1', '2', '8'] := by
      show ((String.mk entry ++ "/" ++ toString (IPAddr.v6 a0).max_plen).data
        = entry ++ ('/' : Char) :: ['1', '2', '8'])
      rw [String.data_append, String.data_append]
      show entry ++ "/".data ++ (toString (128 : Nat)).data = _
      rw [h128]
      simp
    have hq : splitOnChar ('/' : Char) ['1', '2', '8'] = [['1', '2', '8']] := by decide
    have hp : parse_decimal ['1', '2', '8'] = some 128 := by decide
    simp only [ip_network_strict, hl, splitOnChar_append _ _ _ h, hq, ha, hp]
    simp [IPAddr.max_plen, IPAddr.toNat, Nat.mod_one]

/-- C7: `parse_csv_ip_ranges_to_ip_networks` parses each entry
containing `/` as a strict CIDR network kept unchanged, normalizes each
bare address to a host network (`/32` for IPv4, `/128` for IPv6, i.e.
the address's `max_prefixlen`), raises `InputValidationError` naming
the offending token for an entry that parses as neither, and on
`"10.0.0.1,192.168.1.0/24"` yields exactly `10.0.0.1/32` and
`192.168.1.0/24` in order. -/
theorem C7_parse_csv_ip_ranges_to_ip_networks :
    (∀ entry : List Char, ('/' : Char) ∈ entry → ∀ n : IPNetwork,
        ip_network_strict (String.mk entry) = some n →
        parse_csv_entry entry = Except.ok n) ∧
    (∀ entry : List Char, ('/' : Char) ∉ entry → ∀ a : IPAddr,
        ip_address (String.mk entry) = some a →
        parse_csv_entry entry = Except.ok ⟨a, a.max_plen⟩) ∧
    (∀ entry : List Char,
        (('/' : Char) ∈ entry → ip_network_strict (String.mk entry) = none) →
        (('/' : Char) ∉ entry → ip_address (String.mk entry) = none) →
        parse_csv_entry entry =
          Except.error ("Unable to parse IP address: " ++ String.mk entry)) ∧
    parse_csv_ip_ranges_to_ip_networks "10.0.0.1,192.168.1.0/24" =
      Except.ok [⟨IPAddr.v4 167772161, 32⟩, ⟨IPAddr.v4 3232235776, 24⟩] := by
  refine ⟨?_, ?_, ?_, by decide⟩
  · intro entry hmem n hn
    simp only [parse_csv_entry, if_pos hmem, hn]
  · intro entry hmem a ha
    simp only [parse_csv_entry, if_neg hmem, ha,
      ip_network_strict_host entry a hmem ha]
  · intro entry h1 h2
    by_cases hmem : ('/' : Char) ∈ entry
    · simp only [parse_csv_entry, if_pos hmem, h1 hmem]
    · simp only [parse_csv_entry, if_neg hmem, h2 hmem]

/-- Concrete instantiation of `C7_parse_csv_ip_ranges_to_ip_networks`:
the bare address `10.0.0.1` becomes the host network `10.0.0.1/32`. -/
theorem C7_parse_csv_ip_ranges_to_ip_networks_witness :
    parse_csv_entry "10.0.0.1".toList =
      Except.ok ⟨IPAddr.v4 167772161, (IPAddr.v4 167772161).max_plen⟩ :=
  C7_parse_csv_ip_ranges_to_ip_networks.2.1 "10.0.0.1".toList (by decide)
    (IPAddr.v4 167772161) (by decide)

/-- Looking up the key just inserted. -/
theorem lookupA_insertA_self {α β : Type} [DecidableEq α]
    (l : List (α × β)) (k : α) (v : β) :
    lookupA (insertA l k v) k = some v := by
  induction l with
  | nil => simp [insertA, lookupA]
  | cons p t ih =>
    obtain ⟨k2, v2⟩ := p
    by_cases h : k2 = k
    · simp [insertA, lookupA, h]
    · simp [insertA, lookupA, h, ih]

/-- Inserting one key leaves every other key's binding unchanged. -/
theorem lookupA_insertA_ne {α β : Type} [DecidableEq α]
    (l : List (α × β)) (k k2 : α) (v : β) (h : k2 ≠ k) :
    lookupA (insertA l k v) k2 = lookupA l k2 := by
  induction l with
  | nil => simp [insertA, lookupA, Ne.symm h]
  | cons p t ih =>
    obtain ⟨k3, v3⟩ := p
    by_cases h3 : k3 = k
    · subst h3
      simp [insertA, lookupA, Ne.symm h]
    · simp [insertA, lookupA, h3, ih]

/-- After removing a key, looking it up yields nothing. -/
theorem lookupA_filter_self {α β : Type} [DecidableEq α]
    (l : List (α × β)) (t : α) :
    lookupA (l.filter fun p => p.1 ≠ t) t = none := by
  induction l with
  | nil => simp [lookupA]
  | cons p r ih =>
    obtain ⟨k, v⟩ := p
    simp only [decide_not] at ih
    by_cases h : k = t
    · simp [List.filter_cons, h, ih]
    · simp [List.filter_cons, h, lookupA, ih]

/-- Removing one key leaves every other key's binding unchanged. -/
theorem lookupA_filter_ne {α β : Type} [DecidableEq α]
    (l : List (α × β)) (t k : α) (h : k ≠ t) :
    lookupA (l.filter fun p => p.1 ≠ t) k = lookupA l k := by
  induction l with
  | nil => simp
  | cons p r ih =>
    obtain ⟨k2, v⟩ := p
    simp only [decide_not] at ih
    by_cases h2 : k2 = t
    · simp [List.filter_cons, h2, lookupA, Ne.symm h, ih]
    · simp [List.filter_cons, h2, lookupA, ih]

/-- C6: `ApiCache.invalidate tid` removes exactly tenant `tid`'s
entries and leaves every other tenant's entries unchanged, while
`ApiCache.invalidate` with no tenant removes all tenants' entries. -/
theorem C6_ApiCache_invalidate (c : Cache) (t tid : Nat) (res lang : String) :
    (ApiCache.get (ApiCache.invalidate c (some t)) tid res lang
      = if tid = t then none else ApiCache.get c tid res lang) ∧
    ApiCache.get (ApiCache.invalidate c none) tid res lang = none := by
  constructor
  · by_cases h : tid = t
    · subst h
      simp only [ApiCache.get, ApiCache.invalidate]
      rw [lookupA_filter_self]
      simp
    · simp only [ApiCache.get, ApiCache.invalidate]
      rw [lookupA_filter_ne c t tid h]
      simp [h]
  · rfl

/-- `ApiCache.set` on one key triple does not change what `ApiCache.get`
returns for any other key triple. -/
theorem ApiCache_get_set_ne (gz : List UInt8 → List UInt8) (c : Cache)
    (tid tid2 : Nat) (res res2 lang lang2 ct : String) (data : CacheData)
    (h : ¬ (tid2 = tid ∧ res2 = res ∧ lang2 = lang)) :
    ApiCache.get (ApiCache.set gz c tid res lang ct data).1 tid2 res2 lang2
      = ApiCache.get c tid2 res2 lang2 := by
  by_cases h1 : tid2 = tid
  · subst h1
    by_cases h2 : res2 = res
    · subst h2
      have h3 : ¬ lang2 = lang := fun e => h ⟨rfl, rfl, e⟩
      simp only [ApiCache.get, ApiCache.set, lookupA_insertA_self,
        lookupA_insertA_ne _ _ _ _ h3]
      cases hc : lookupA c tid2 with
      | none => simp [lookupA]
      | some m1 =>
        simp only [Option.getD]
        cases hm : lookupA m1 res2 with
        | none => simp [lookupA]
        | some m2 => simp
    · simp only [ApiCache.get, ApiCache.set, lookupA_insertA_self,
        lookupA_insertA_ne _ _ _ _ h2]
      cases hc : lookupA c tid2 with
      | none => simp [lookupA]
      | some m1 => simp
  · simp only [ApiCache.get, ApiCache.set, lookupA_insertA_ne _ _ _ _ h1]

/-- A sequence of `ApiCache.set` calls none of which stores under a
given key triple leaves `ApiCache.get` at that triple unchanged. -/
theorem ApiCache_get_applySetOps (gz : List UInt8 → List UInt8)
    (ops : List SetOp) (c : Cache) (tid : Nat) (res lang : String)
    (h : ∀ op ∈ ops, ¬ (op.tid = tid ∧ op.resource = res ∧ op.language = lang)) :
    ApiCache.get (applySetOps gz ops c) tid res lang = ApiCache.get c tid res lang := by
  induction ops generalizing c with
  | nil => rfl
  | cons op t ih =>
    have hop := h op (List.mem_cons_self op t)
    have hop2 : ¬ (tid = op.tid ∧ res = op.resource ∧ lang = op.language) :=
      fun e => hop ⟨e.1.symm, e.2.1.symm, e.2.2.symm⟩
    rw [applySetOps,
      ih _ (fun o m => h o (List.mem_cons_of_mem op m)),
      ApiCache_get_set_ne gz c op.tid tid op.resource res op.language lang _ _ hop2]

/-- C5: `ApiCache.set` followed by `ApiCache.get` on the same key
triple returns the stored entry, whose content type is the one passed
to `set` and whose body gzip-decompresses to the original data bytes
(text being UTF-8 encoded first); `get` on a key triple that no `set`
of a sequence stored returns an absent result.  `gunzip` is any
decompressor inverting the gzip codec `gz`. -/
theorem C5_ApiCache_set_get_roundtrip
    (gz gunzip : List UInt8 → List UInt8) (hinv : ∀ b, gunzip (gz b) = b)
    (c : Cache) (tid : Nat) (res lang ct : String) (data : CacheData)
    (ops : List SetOp) (tid2 : Nat) (res2 lang2 : String)
    (hops : ∀ op ∈ ops, ¬ (op.tid = tid2 ∧ op.resource = res2 ∧ op.language = lang2)) :
    ApiCache.get (ApiCache.set gz c tid res lang ct data).1 tid res lang
      = some (ApiCache.set gz c tid res lang ct data).2 ∧
    (ApiCache.set gz c tid res lang ct data).2.1 = ct ∧
    gunzip (ApiCache.set gz c tid res lang ct data).2.2 = data.raw ∧
    ApiCache.get (applySetOps gz ops []) tid2 res2 lang2 = none := by
  refine ⟨?_, rfl, hinv data.raw, ?_⟩
  · simp [ApiCache.get, ApiCache.set, lookupA_insertA_self]
  · rw [ApiCache_get_applySetOps _ _ _ _ _ _ hops]
    rfl

/-- Concrete instantiation of `C5_ApiCache_set_get_roundtrip`: identity
codec, empty cache, one stored entry read back, and a `get` under a
different tenant after an unrelated `set`. -/
theorem C5_ApiCache_set_get_roundtrip_witness :
    ApiCache.get (ApiCache.set (fun b => b) [] 1 "/x" "en" "application/json"
        (CacheData.bytes [123, 125])).1 1 "/x" "en"
      = some (ApiCache.set (fun b => b) [] 1 "/x" "en" "application/json"
        (CacheData.bytes [123, 125])).2 ∧
    (ApiCache.set (fun b => b) [] 1 "/x" "en" "application/json"
        (CacheData.bytes [123, 125])).2.1 = "application/json" ∧
    (fun b => b) (ApiCache.set (fun b => b) [] 1 "/x" "en" "application/json"
        (CacheData.bytes [123, 125])).2.2 = (CacheData.bytes [123, 125]).raw ∧
    ApiCache.get (applySetOps (fun b => b)
        [⟨2, "/y", "en", "text/plain", CacheData.bytes []⟩] []) 1 "/x" "en" = none :=
  C5_ApiCache_set_get_roundtrip (fun b => b) (fun b => b) (fun _b => rfl)
    [] 1 "/x" "en" "application/json" (CacheData.bytes [123, 125])
    [⟨2, "/y", "en", "text/plain", CacheData.bytes []⟩] 1 "/x" "en" (by decide)

/-- The `for u in users: if check_password(...): user = u` loop selects
nothing when no row passes the check. -/
theorem foldl_select_none {α : Type} (l : List α) (p : α → Bool)
    (h : ∀ u ∈ l, p u = false) :
    l.foldl (fun acc u => if p u then some u else acc) none = none := by
  induction l with
  | nil => rfl
  | cons u t ih =>
    rw [List.foldl_cons, if_neg (by simp [h u (List.mem_cons_self u t)]),
      ih (fun x m => h x (List.mem_cons_of_mem u m))]

/-- C2: a staff login in which no enabled, tenant-member user row with
the given username has a verifying password, and a whistleblower login
in which no tip in the tenant matches the salted receipt hash, both
increment the failed-login counter by one and fail with
`InvalidAuthentication` — one fixed outcome, so unknown username/receipt
and wrong password/receipt are indistinguishable. -/
theorem C2_uniform_invalid_authentication
    (db : DB) (checkpw : String → String → String → Bool)
    (hashpw : String → String → String) (tc : TenantConfig) (tid : Nat)
    (username password receipt client_ip : String)
    (client_using_tor : Bool) (F : Nat) :
    ((∀ u ∈ db.users, u.username = username → u.state ≠ "disabled" →
        (∃ ut ∈ db.user_tenants, ut.user_id = u.id ∧ ut.tenant_id = tid) →
        checkpw password u.salt u.password = false) →
      login db checkpw tc tid username password client_using_tor client_ip F
        = (Except.error AuthError.invalidAuthentication, F + 1)) ∧
    ((∀ wb ∈ db.wbtips, ∀ it ∈ db.itips,
        ¬ (wb.receipt_hash = hashpw receipt tc.receipt_salt ∧ wb.tid = tid ∧
           it.id = wb.id ∧ it.tid = wb.tid)) →
      login_whistleblower db hashpw tc tid receipt client_using_tor F
        = (Except.error AuthError.invalidAuthentication, F + 1)) := by
  constructor
  · intro h
    have hnone : findVerifyingUser db checkpw tid username password = none := by
      unfold findVerifyingUser
      apply foldl_select_none
      intro u hu
      rw [List.mem_filter] at hu
      have hprop := of_decide_eq_true hu.2
      obtain ⟨ut, hut, hc⟩ := List.any_eq_true.mp hprop.2.2
      exact h u hu.1 hprop.1 hprop.2.1
        ⟨ut, hut, of_decide_eq_true hc⟩
    simp only [login, hnone]
  · intro h
    have hq : wbLoginQuery db tid (hashpw receipt tc.receipt_salt) = none := by
      unfold wbLoginQuery
      have hnil : ((db.wbtips.product db.itips).filter fun p =>
          p.1.receipt_hash = hashpw receipt tc.receipt_salt ∧ p.1.tid = tid ∧
          p.2.id = p.1.id ∧ p.2.tid = p.1.tid) = [] := by
        rw [List.filter_eq_nil_iff]
        rintro ⟨wb, it⟩ hmem hp
        rw [decide_eq_true_eq] at hp
        have hm := List.mem_product.mp hmem
        exact h wb hm.1 it hm.2 hp
      rw [hnil]
      rfl
    simp only [login_whistleblower, hq]

/-- Concrete instantiation of `C2_uniform_invalid_authentication`: the
empty database, where both hypotheses hold vacuously. -/
theorem C2_uniform_invalid_authentication_witness :
    login ⟨[], [], [], []⟩ (fun _ _ _ => false)
        ⟨fun _ => true, "s", false, ""⟩ 1 "admin" "pw" true "127.0.0.1" 0
      = (Except.error AuthError.invalidAuthentication, 1) ∧
    login_whistleblower ⟨[], [], [], []⟩ (fun r _ => r)
        ⟨fun _ => true, "s", false, ""⟩ 1 "receipt" true 0
      = (Except.error AuthError.invalidAuthentication, 1) :=
  ⟨(C2_uniform_invalid_authentication ⟨[], [], [], []⟩ (fun _ _ _ => false)
      (fun r _ => r) ⟨fun _ => true, "s", false, ""⟩ 1 "admin" "pw" "receipt"
      "127.0.0.1" true 0).1 (by simp),
   (C2_uniform_invalid_authentication ⟨[], [], [], []⟩ (fun _ _ _ => false)
      (fun r _ => r) ⟨fun _ => true, "s", false, ""⟩ 1 "admin" "pw" "receipt"
      "127.0.0.1" true 0).2 (by simp)⟩

/-- C3: with verifying credentials, a client that did not arrive over
the anonymity network, and the tenant's `https_<role>` reachability
flag false for the authenticated subject's role (`https_whistleblower`
for whistleblowers), both logins fail with `TorNetworkRequired`. -/
theorem C3_tor_network_required
    (db : DB) (checkpw : String → String → String → Bool)
    (hashpw : String → String → String) (tc : TenantConfig) (tid : Nat)
    (username password receipt client_ip : String) (F : Nat)
    (u : User) (pr : WhistleblowerTip × InternalTip) :
    ((findVerifyingUser db checkpw tid username password = some u) →
      tc.https u.role = false →
      login db checkpw tc tid username password false client_ip F
        = (Except.error AuthError.torNetworkRequired, F)) ∧
    ((wbLoginQuery db tid (hashpw receipt tc.receipt_salt) = some pr) →
      tc.https "whistleblower" = false →
      login_whistleblower db hashpw tc tid receipt false F
        = (Except.error AuthError.torNetworkRequired, F)) := by
  constructor
  · intro hfind hflag
    simp [login, hfind, hflag]
  · intro hq hflag
    simp [login_whistleblower, hq, hflag]

/-- Concrete instantiation of `C3_tor_network_required`: one enabled
admin with a verifying password on a tenant whose `https_admin` flag is
off, and one matching tip on a tenant whose `https_whistleblower` flag
is off; both web clients are rejected. -/
theorem C3_tor_network_required_witness :
    login ⟨[⟨"u1", "admin", "s1", "h1", "admin", "enabled", false⟩],
        [⟨"u1", 1⟩], [⟨"t1", 1, "receipt"⟩], [⟨"t1", 1⟩]⟩ (fun _ _ _ => true)
        ⟨fun _ => false, "s", false, ""⟩ 1 "admin" "pw" false "127.0.0.1" 0
      = (Except.error AuthError.torNetworkRequired, 0) ∧
    login_whistleblower ⟨[⟨"u1", "admin", "s1", "h1", "admin", "enabled", false⟩],
        [⟨"u1", 1⟩], [⟨"t1", 1, "receipt"⟩], [⟨"t1", 1⟩]⟩
        (fun r _ => r) ⟨fun _ => false, "s", false, ""⟩ 1 "receipt" false 0
      = (Except.error AuthError.torNetworkRequired, 0) :=
  ⟨(C3_tor_network_required ⟨[⟨"u1", "admin", "s1", "h1", "admin", "enabled", false⟩],
      [⟨"u1", 1⟩], [⟨"t1", 1, "receipt"⟩], [⟨"t1", 1⟩]⟩ (fun _ _ _ => true) (fun r _ => r)
      ⟨fun _ => false, "s", false, ""⟩ 1 "admin" "pw" "receipt" "127.0.0.1" 0
      ⟨"u1", "admin", "s1", "h1", "admin", "enabled", false⟩
      (⟨"t1", 1, "receipt"⟩, ⟨"t1", 1⟩)).1 (by decide) rfl,
   (C3_tor_network_required ⟨[⟨"u1", "admin", "s1", "h1", "admin", "enabled", false⟩],
      [⟨"u1", 1⟩], [⟨"t1", 1, "receipt"⟩], [⟨"t1", 1⟩]⟩ (fun _ _ _ => true) (fun r _ => r)
      ⟨fun _ => false, "s", false, ""⟩ 1 "admin" "pw" "receipt" "127.0.0.1" 0
      ⟨"u1", "admin", "s1", "h1", "admin", "enabled", false⟩
      (⟨"t1", 1, "receipt"⟩, ⟨"t1", 1⟩)).2 (by decide) rfl⟩

/-- C4: for a staff login with verifying credentials that passes the
transport gate, on a tenant with IP-allowlist enforcement enabled: a
loopback client address can never be rejected with
`AccessLocationInvalid` whatever the configured CIDR list, and succeeds
outright whenever the list parses; a non-loopback client address inside
none of the configured networks is rejected with
`AccessLocationInvalid`. -/
theorem C4_ip_filter
    (db : DB) (checkpw : String → String → String → Bool)
    (tc : TenantConfig) (tid : Nat) (username password client_ip : String)
    (client_using_tor : Bool) (F : Nat) (u : User) (cip : IPAddr)
    (hfind : findVerifyingUser db checkpw tid username password = some u)
    (hpass : client_using_tor = true ∨ tc.https u.role = true)
    (hen : tc.ip_filter_authenticated_enable = true)
    (hip : ip_address client_ip = some cip) :
    (cip.is_loopback = true →
      (login db checkpw tc tid username password client_using_tor client_ip F).1
        ≠ Except.error AuthError.accessLocationInvalid) ∧
    (∀ nets : List IPNetwork,
      parse_csv_ip_ranges_to_ip_networks tc.ip_filter_authenticated = Except.ok nets →
      cip.is_loopback = true →
      login db checkpw tc tid username password client_using_tor client_ip F
        = (Except.ok ⟨tid, u.id, u.role, u.password_change_needed⟩, F)) ∧
    (∀ nets : List IPNetwork,
      parse_csv_ip_ranges_to_ip_networks tc.ip_filter_authenticated = Except.ok nets →
      cip.is_loopback = false →
      (∀ n ∈ nets, n.mem cip = false) →
      login db checkpw tc tid username password client_using_tor client_ip F
        = (Except.error AuthError.accessLocationInvalid, F)) := by
  have hgate : ¬ (client_using_tor = false ∧ tc.https u.role = false) := by
    rcases hpass with h | h <;> simp [h]
  refine ⟨?_, ?_, ?_⟩
  · intro hloop
    cases hr : parse_csv_ip_ranges_to_ip_networks tc.ip_filter_authenticated with
    | error e =>
      simp [login, hfind, hgate, hen, hr]
    | ok nets =>
      simp [login, hfind, hgate, hen, hr, hip, hloop]
  · intro nets hr hloop
    simp [login, hfind, hgate, hen, hr, hip, hloop]
  · intro nets hr hloop hnone
    have hany : nets.any (fun n => n.mem cip) = false :=
      List.any_eq_false.mpr (by simpa using hnone)
    simp [login, hfind, hgate, hen, hr, hip, hloop, hany]

/-- Concrete instantiation of `C4_ip_filter`: with the allowlist
`10.0.0.0/8`, the outside client `192.168.1.20` is rejected with
`AccessLocationInvalid`. -/
theorem C4_ip_filter_witness :
    login ⟨[⟨"u1", "admin", "s1", "h1", "admin", "enabled", false⟩],
        [⟨"u1", 1⟩], [], []⟩ (fun _ _ _ => true)
        ⟨fun _ => true, "s", true, "10.0.0.0/8"⟩ 1 "admin" "pw" false
        "192.168.1.20" 0
      = (Except.error AuthError.accessLocationInvalid, 0) :=
  (C4_ip_filter ⟨[⟨"u1", "admin", "s1", "h1", "admin", "enabled", false⟩],
      [⟨"u1", 1⟩], [], []⟩ (fun _ _ _ => true)
      ⟨fun _ => true, "s", true, "10.0.0.0/8"⟩ 1 "admin" "pw" "192.168.1.20"
      false 0 ⟨"u1", "admin", "s1", "h1", "admin", "enabled", false⟩
      (IPAddr.v4 3232235796) (by decide) (Or.inr rfl) rfl (by decide)).2.2
    [⟨IPAddr.v4 167772160, 8⟩] (by decide) (by decide) (by decide)

/-- A finalized shutdown state absorbs every further event. -/
theorem runShutdownEvents_finalized (evs : List ShutdownEvent)
    (st : ShutdownState) (h : st.shutdown_flag = true) :
    runShutdownEvents evs st = st := by
  induction evs with
  | nil => rfl
  | cons e t ih =>
    show runShutdownEvents t (shutdownCallback st) = st
    rw [shutdownCallback, if_pos h, ih]

/-- C9: the finalize step of `Service.shutdown` runs exactly once —
whichever of the 30-second timer and the completion of the job/service
stop collection fires first triggers it, and every later invocation of
the callback is a no-op because of the one-shot `_shutdown` flag. -/
theorem C9_shutdown_finalize_once :
    (∀ evs : List ShutdownEvent, evs ≠ [] →
      runShutdownEvents evs initShutdownState = ⟨true, 1, 1⟩) ∧
    (∀ st : ShutdownState, st.shutdown_flag = true → shutdownCallback st = st) := by
  constructor
  · intro evs hne
    cases evs with
    | nil => exact absurd rfl hne
    | cons e t =>
      show runShutdownEvents t (shutdownCallback initShutdownState) = _
      rw [show shutdownCallback initShutdownState = ⟨true, 1, 1⟩ from rfl,
        runShutdownEvents_finalized t _ rfl]
  · intro st h
    rw [shutdownCallback, if_pos h]

/-- Concrete instantiation of `C9_shutdown_finalize_once`: the timer
fires first and the job-stop completion follows; the ORM thread pool is
stopped and the deferred fired exactly once. -/
theorem C9_shutdown_finalize_once_witness :
    runShutdownEvents [ShutdownEvent.timerFired, ShutdownEvent.jobsStopped]
        initShutdownState = ⟨true, 1, 1⟩ :=
  C9_shutdown_finalize_once.1 [ShutdownEvent.timerFired, ShutdownEvent.jobsStopped]
    (by decide)

/-- C10: `check_tenant_auth_switch` never returns `False`: the `.one()`
query raises when no membership row exists (and when several do), so
every run returns `True` or propagates an exception; consequently the
`if check:` guard of `TenantAuthSwitchHandler.get` can only skip
session assignment in a run that would then read the unassigned
`session` variable — the falsy branch yields an `UnboundLocalError`,
not a structured authorization failure. -/
theorem C10_check_tenant_auth_switch_never_false :
    (∀ (uts : List UserTenant) (uid : String) (tid : Nat),
      check_tenant_auth_switch uts uid tid ≠ Except.ok false) ∧
    (∀ (uts : List UserTenant) (uid : String) (tid : Nat),
      (∀ ut ∈ uts, ¬ (ut.user_id = uid ∧ ut.tenant_id = tid)) →
      check_tenant_auth_switch uts uid tid = Except.error OneError.noResultFound) ∧
    (∀ s : Session,
      tenantAuthSwitchGet (Except.ok false) s = SwitchOutcome.unboundLocalSession) := by
  refine ⟨?_, ?_, fun s => rfl⟩
  · intro uts uid tid h
    rw [check_tenant_auth_switch] at h
    cases hq : queryOne (uts.filter fun ut =>
        ut.user_id = uid ∧ ut.tenant_id = tid) with
    | error e => rw [hq] at h; exact Except.noConfusion h
    | ok r => rw [hq] at h; exact Bool.noConfusion (Except.ok.inj h)
  · intro uts uid tid h
    have hnil : (uts.filter fun ut => ut.user_id = uid ∧ ut.tenant_id = tid) = [] := by
      rw [List.filter_eq_nil_iff]
      intro ut hm hp
      exact h ut hm (of_decide_eq_true hp)
    rw [check_tenant_auth_switch, hnil]
    rfl

/-- Concrete instantiation of
`C10_check_tenant_auth_switch_never_false`: with no membership rows the
query raises `NoResultFound` instead of returning `False`. -/
theorem C10_check_tenant_auth_switch_never_false_witness :
    check_tenant_auth_switch [] "u1" 2 = Except.error OneError.noResultFound :=
  C10_check_tenant_auth_switch_never_false.2.1 [] "u1" 2 (by simp)

end Gleaks
